import Mathlib

/-!
Verification of the MiniRFC5424SysLogHandler repository (src/__init__.py,
class MiniSysLogHandler) against its natural-language specification.

Shallow embedding notes.
The source is Python 2 style code (it tests `type(msg) is unicode`, a
builtin that exists only in Python 2, and uses the two-argument super
call).  We embed:
  * the pure frame construction of `emit` (lines 97, 102-112, 114-127)
    as `buildFrame`;
  * `get_timestamp` (lines 79-85) as `get_timestamp`, with `time.gmtime`
    modelled by the standard civil-from-days algorithm and `strftime`
    modelled as fixed-width decimal rendering (exact for years in
    [1970, 9999], which the theorems assume where it matters);
  * the effectful part of `emit` (lines 95-141) as a function over an
    explicit environment `EmitEnv` that decides the outcome of
    `self.format`, of each socket send attempt, and of the
    `_connect_unixsocket` call; the produced socket operations are
    returned as a trace of `Event`s, and the exception (if any) that
    escapes `emit` to its caller is returned alongside.
Python strings are modelled as Lean `String`s.  Line 112 of the source
applies `.encode('utf-8')` to a Python 2 byte string, which implicitly
ascii-decodes first and raises UnicodeDecodeError whenever the message
contains a non-ASCII byte; this is the `asciiOnly` guard in `emitTry`.
The bytes handed to the socket are modelled by `utf8Encode` applied to
the assembled text (exact for the frames that reach a send: the body is
forced ASCII by the guard, and header tokens are ASCII per the
configuration invariant of the specification, section 3).
Exception objects are modelled by `PyExc`; every constructor stands for
a subclass of Python `Exception`, which is what the `except Exception`
clause at line 140 catches.  The environment lets each send raise any
of them, but under Python 2 a failing socket send raises socket.error
(`socketError`), which is a subclass of IOError and not of OSError, so
it is never caught by the `except OSError` clause at line 132; the
OSError case of the environment is the counterfactual that the retry
clause was written for.  `handleError` (inherited from the logging
framework) prints a diagnostic and does not raise.
-/

/-- Exceptions that can arise inside emit.  Each constructor models a
Python class derived from Exception: `osError` is OSError (the class
named by the retry clause at line 132); `socketError` is socket.error,
the class every socket send operation raises on failure, which in
Python 2 (since 2.6) is a subclass of IOError, a sibling of OSError and
not a subclass of it, so a socketError is not an instance of the
OSError named at line 132 and the retry clause does not catch it (it is
still an Exception, so line 140 does); `unicodeDecodeError` is the
UnicodeDecodeError raised by the encode step at line 112; `valueError`
and `otherError` stand for any other exception (for instance one raised
by `self.format`). -/
inductive PyExc
  | osError
  | socketError
  | unicodeDecodeError
  | valueError
  | otherError
deriving DecidableEq

/-- Socket type of the handler, from the inherited SysLogHandler state:
SOCK_DGRAM or SOCK_STREAM (line 136 tests `self.socktype == socket.SOCK_DGRAM`). -/
inductive SockType
  | dgram
  | stream
deriving DecidableEq

/-- Instance state of a MiniSysLogHandler.  `appname`, `procid`,
`msgid`, `address` and `sd` are assigned by `__init__` (lines 72-76);
`facility`, `unixsocket` and `socktype` are assigned by the inherited
SysLogHandler constructor (an external collaborator, per section 1 of
the specification) and are carried here as plain fields.  `sock` is the
identity of the current socket object: `_connect_unixsocket` replaces
`self.socket` with a fresh socket, modelled as incrementing `sock`. -/
structure Handler where
  appname : String
  procid : String
  msgid : String
  address : String
  sd : Bool
  facility : Nat
  unixsocket : Bool
  socktype : SockType
  sock : Nat
deriving DecidableEq

/-- A log record, as read by emit and get_timestamp: `created` is the
creation time in whole seconds since the Unix epoch (time.gmtime
truncates the fractional part), `msecs` is the millisecond field of the
record (the logging framework computes it as the fractional part of the
creation time times 1000, so it lies in [0, 1000); the `%03d` format at
line 84 truncates it to an integer), and `levelname` is the severity
level name. -/
structure LogRecord where
  created : Nat
  msecs : Nat
  levelname : String
deriving DecidableEq

/-- Environment for one emit call: the outcome of `self.format(record)`
(line 97), the outcome of the n-th socket send operation performed
during the call (counting from 0; `none` means success, `some e` means
the call raised `e`), and the outcome of `_connect_unixsocket` at
line 134. -/
structure EmitEnv where
  formatRes : Except PyExc String
  sendFail : Nat → Option PyExc
  reconnectFail : Option PyExc

/-- Observable socket operations performed by one emit call.  A send
event is recorded for every attempted send, including ones whose
outcome is a raised exception. -/
inductive Event
  | send (payload : List Nat)
  | sendto (payload : List Nat) (address : String)
  | sendall (payload : List Nat)
  | closeSock
  | reconnect (address : String)
  | handleError
deriving DecidableEq

/-- Broken-down UTC time, the fields of `time.struct_time` used by the
strftime call at line 83. -/
structure Tm where
  year : Nat
  month : Nat
  day : Nat
  hour : Nat
  minute : Nat
  sec : Nat
deriving DecidableEq

/-- Model of `time.gmtime` (UTC civil time from Unix epoch seconds, an
external collaborator from the Python standard library), using the
standard civil-from-days conversion. -/
def gmtime (t : Nat) : Tm :=
  let days := t / 86400
  let rem := t % 86400
  let z := days + 719468
  let era := z / 146097
  let doe := z % 146097
  let yoe := (doe - doe / 1460 + doe / 36524 - doe / 146097) / 365
  let doy := doe - (365 * yoe + yoe / 4 - yoe / 100)
  let mp := (5 * doy + 2) / 153
  let day := doy - (153 * mp + 2) / 5 + 1
  let month := if mp < 10 then mp + 3 else mp - 9
  let year := era * 400 + yoe + (if month ≤ 2 then 1 else 0)
  { year := year, month := month, day := day,
    hour := rem / 3600, minute := rem / 60 % 60, sec := rem % 60 }

/-- The decimal digit character for `n % 10`. -/
def digitChar (n : Nat) : Char := Char.ofNat (48 + n % 10)

/-- Two-digit zero-padded decimal rendering, the model of `%02d` for
arguments below 100 (all month, day, hour, minute and second values). -/
def pad2 (n : Nat) : List Char := [digitChar (n / 10), digitChar n]

/-- Three-digit zero-padded decimal rendering, the model of `%03d` for
arguments below 1000 (the millisecond field). -/
def pad3 (n : Nat) : List Char := [digitChar (n / 100), digitChar (n / 10), digitChar n]

/-- Four-digit decimal rendering, the model of `%Y` for years in
[1970, 9999]. -/
def pad4 (n : Nat) : List Char :=
  [digitChar (n / 1000), digitChar (n / 100), digitChar (n / 10), digitChar n]

/-- Model of `time.strftime('%Y-%m-%dT%H:%M:%S', ct)` at line 83. -/
def strftimeIso (tm : Tm) : List Char :=
  pad4 tm.year ++ '-' :: pad2 tm.month ++ '-' :: pad2 tm.day ++
    'T' :: pad2 tm.hour ++ ':' :: pad2 tm.minute ++ ':' :: pad2 tm.sec

/-- MiniSysLogHandler.get_timestamp (lines 79-85): strftime of
gmtime(record.created), then `'%s.%03dZ' % (t, record.msecs)`. -/
def get_timestamp (r : LogRecord) : String :=
  ⟨strftimeIso (gmtime r.created) ++ '.' :: pad3 r.msecs ++ ['Z']⟩

/-- Modelled from the spec: the level-name-to-severity mapping
collaborator inherited from the base SysLogHandler (`mapPriority`
composed with the severity-name table used by `encodePriority`), which
is not part of src/.  Section 4.1 of the specification gives the table
CRITICAL to 2, ERROR to 3, WARNING to 4, INFO to 6, DEBUG to 7, with
unknown level names falling back to the WARNING severity. -/
def mapPriority (levelname : String) : Nat :=
  if levelname = "DEBUG" then 7
  else if levelname = "INFO" then 6
  else if levelname = "WARNING" then 4
  else if levelname = "ERROR" then 3
  else if levelname = "CRITICAL" then 2
  else 4

/-- Modelled from the spec: the priority-encoding collaborator
`(facility, severity) -> int` inherited from the base SysLogHandler
(not part of src/), which computes `(facility << 3) | severity`;
section 4.1 of the specification states the result is
`facility*8 + severity`. -/
def encodePriority (facility severity : Nat) : Nat :=
  (facility <<< 3) ||| severity

/-- The severity table supported by the mapping collaborator, as listed
in the specification. -/
def severityTable : List (String × Nat) :=
  [("CRITICAL", 2), ("ERROR", 3), ("WARNING", 4), ("INFO", 6), ("DEBUG", 7)]

/-- True when every character of the string is ASCII.  This is the
success condition of line 112: applying `.encode('utf-8')` to a Python 2
byte string first ascii-decodes it and raises UnicodeDecodeError on any
non-ASCII byte. -/
def asciiOnly (s : String) : Bool := s.data.all (fun c => c.toNat < 128)

/-- UTF-8 encoding of one character (the standard 1-to-4 byte form). -/
def utf8EncodeChar (c : Char) : List Nat :=
  let n := c.toNat
  if n < 128 then [n]
  else if n < 2048 then [192 ||| (n >>> 6), 128 ||| (n &&& 63)]
  else if n < 65536 then
    [224 ||| (n >>> 12), 128 ||| ((n >>> 6) &&& 63), 128 ||| (n &&& 63)]
  else
    [240 ||| (n >>> 18), 128 ||| ((n >>> 12) &&& 63),
     128 ||| ((n >>> 6) &&& 63), 128 ||| (n &&& 63)]

/-- UTF-8 encoding of a string as a byte list. -/
def utf8Encode (s : String) : List Nat := s.data.flatMap utf8EncodeChar

/-- The textual frame assembled by emit from the formatted record body:
line 97 appends the NUL (`msg = self.format(record) + '\000'`), line 102
builds `prio = '<%d>1 ' % self.encodePriority(self.facility,
self.mapPriority(record.levelname))`, line 109 builds the timestamp, and
lines 114-127 interpolate, with `'%s %s %s %s %s %s'` when `self.sd is
True` and `'%s %s %s %s %s - %s'` otherwise, the fields ts, fqdn,
appname, procid, levelname and msg after the prio prefix. -/
def buildFrame (h : Handler) (r : LogRecord) (fqdn body : String) : String :=
  let msg := body ++ "\x00"
  let prio := "<" ++ toString (encodePriority h.facility (mapPriority r.levelname)) ++ ">1 "
  let ts := get_timestamp r
  if h.sd then
    prio ++ ts ++ " " ++ fqdn ++ " " ++ h.appname ++ " " ++ h.procid ++ " " ++
      r.levelname ++ " " ++ msg
  else
    prio ++ ts ++ " " ++ fqdn ++ " " ++ h.appname ++ " " ++ h.procid ++ " " ++
      r.levelname ++ " - " ++ msg

/-- The try block of emit (lines 96-139).  Returns the handler state
after the call, the trace of socket operations, and the exception (if
any) that the block raises.  Control flow: `self.format` may raise
(line 97); the encode step at line 112 raises UnicodeDecodeError on a
non-ASCII body; then line 129 dispatches on `self.unixsocket`: a failed
first send is retried after `self.socket.close()` (line 133) and
`self._connect_unixsocket(self.address)` (line 134) when and only when
the raised exception is an OSError (line 132); datagram sockets use
`sendto(msg, self.address)` (line 137) and stream sockets `sendall`
(line 139), both without retry. -/
def emitTry (h : Handler) (r : LogRecord) (env : EmitEnv) (fqdn : String) :
    Handler × List Event × Option PyExc :=
  match env.formatRes with
  | Except.error e => (h, [], some e)
  | Except.ok body =>
    if asciiOnly (body ++ "\x00") = false then
      (h, [], some PyExc.unicodeDecodeError)
    else
      let payload := utf8Encode (buildFrame h r fqdn body)
      if h.unixsocket then
        match env.sendFail 0 with
        | none => (h, [Event.send payload], none)
        | some e =>
          if e = PyExc.osError then
            let h2 : Handler := { h with sock := h.sock + 1 }
            match env.reconnectFail with
            | some e2 =>
              (h2, [Event.send payload, Event.closeSock, Event.reconnect h.address], some e2)
            | none =>
              match env.sendFail 1 with
              | none =>
                (h2, [Event.send payload, Event.closeSock, Event.reconnect h.address,
                      Event.send payload], none)
              | some e2 =>
                (h2, [Event.send payload, Event.closeSock, Event.reconnect h.address,
                      Event.send payload], some e2)
          else
            (h, [Event.send payload], some e)
      else if h.socktype = SockType.dgram then
        match env.sendFail 0 with
        | none => (h, [Event.sendto payload h.address], none)
        | some e => (h, [Event.sendto payload h.address], some e)
      else
        match env.sendFail 0 with
        | none => (h, [Event.sendall payload], none)
        | some e => (h, [Event.sendall payload], some e)

/-- MiniSysLogHandler.emit (lines 88-141): the try block wrapped in
`except Exception: self.handleError(record)` (lines 140-141).  Every
`PyExc` models an Exception subclass, so the clause catches every
exception the block can raise; `handleError` swallows it after printing
a diagnostic. -/
def emit (h : Handler) (r : LogRecord) (env : EmitEnv) (fqdn : String) :
    Handler × List Event × Option PyExc :=
  match emitTry h r env fqdn with
  | (h2, evs, none) => (h2, evs, none)
  | (h2, evs, some _) => (h2, evs ++ [Event.handleError], none)

/-- MiniSysLogHandler.__init__ (lines 62-77): stores appname, procid,
msgid, address and sd on the instance.  The remaining fields (facility,
unixsocket, socktype and the socket object) are assigned by the
inherited SysLogHandler constructor, an external collaborator; they are
taken here as parameters.  The defaults of the Python signature are
appname = procid = msgid = the one-character string of a hyphen,
address = the pair of 127.0.0.1 and 514, sd = False. -/
def initHandler (appname procid msgid address : String) (sd : Bool)
    (facility : Nat) (unixsocket : Bool) (socktype : SockType) (sock : Nat) : Handler :=
  { appname := appname, procid := procid, msgid := msgid, address := address,
    sd := sd, facility := facility, unixsocket := unixsocket,
    socktype := socktype, sock := sock }

/-- The payload of a send, sendto or sendall event. -/
def payloadOf : Event → Option (List Nat)
  | Event.send p => some p
  | Event.sendto p _ => some p
  | Event.sendall p => some p
  | _ => none

/-- All payloads handed to socket send operations in a trace. -/
def sentPayloads (evs : List Event) : List (List Nat) := evs.filterMap payloadOf

/-- The frame up to and including the level-name field and its trailing
space: everything of `buildFrame` before the structured-data position. -/
def frameHeader (h : Handler) (r : LogRecord) (fqdn : String) : String :=
  "<" ++ toString (encodePriority h.facility (mapPriority r.levelname)) ++ ">1 " ++
    get_timestamp r ++ " " ++ fqdn ++ " " ++ h.appname ++ " " ++ h.procid ++ " " ++
    r.levelname ++ " "

/-- The priority and version prefix of the frame, `'<%d>1 '` (line 102),
which is plain ASCII. -/
def prioOf (h : Handler) (r : LogRecord) : String :=
  "<" ++ toString (encodePriority h.facility (mapPriority r.levelname)) ++ ">1 "

/-- The remainder of the frame after the priority and version prefix. -/
def frameRest (h : Handler) (r : LogRecord) (fqdn body : String) : String :=
  get_timestamp r ++ " " ++ fqdn ++ " " ++ h.appname ++ " " ++ h.procid ++ " " ++
    r.levelname ++ (if h.sd then " " else " - ") ++ (body ++ "\x00")

/-- A sample record: the creation time of the docstring example,
2019-06-12 22:07:17.772 UTC. -/
def sampleR : LogRecord := ⟨1560377237, 772, "INFO"⟩

/-- A handler configured like the docstring example, with the inherited
state of a UDP datagram destination. -/
def udpH : Handler := ⟨"CoolApp", "TAG", "MID", "127.0.0.1:514", false, 1, false, SockType.dgram, 0⟩

/-- A handler whose inherited state names a Unix domain socket. -/
def sampleHU : Handler := ⟨"CoolApp", "TAG", "MID", "/dev/log", false, 1, true, SockType.dgram, 0⟩

/-- A handler constructed with an explicitly empty appname. -/
def emptyAppH : Handler := ⟨"", "TAG", "-", "127.0.0.1:514", false, 1, false, SockType.dgram, 0⟩

/-- An environment where formatting and every socket operation succeed. -/
def envOk : EmitEnv := ⟨Except.ok "m", fun _ => none, none⟩

/-- An environment where formatting succeeds and every socket send
raises OSError, while reconnecting succeeds. -/
def envBothFail : EmitEnv := ⟨Except.ok "hello", fun _ => some PyExc.osError, none⟩

/-- An environment where formatting succeeds and every socket send
raises socket.error, the class a failing send actually raises under
Python 2. -/
def envSockFail : EmitEnv := ⟨Except.ok "hello", fun _ => some PyExc.socketError, none⟩

/-- An environment where `self.format` itself raises. -/
def envFormatFail : EmitEnv := ⟨Except.error PyExc.valueError, fun _ => none, none⟩

/-- Shape checker for the timestamp strings of get_timestamp: exactly
`YYYY-MM-DDTHH:MM:SS.mmmZ`, digits in every numeric position, a
three-digit fractional part and a literal trailing Z. -/
def tsShape (s : String) : Bool :=
  match s.data with
  | [y1, y2, y3, y4, s1, mo1, mo2, s2, d1, d2, s3, h1, h2, s4,
     mi1, mi2, s5, se1, se2, s6, f1, f2, f3, s7] =>
    y1.isDigit && y2.isDigit && y3.isDigit && y4.isDigit && (s1 == '-') &&
    mo1.isDigit && mo2.isDigit && (s2 == '-') && d1.isDigit && d2.isDigit &&
    (s3 == 'T') && h1.isDigit && h2.isDigit && (s4 == ':') &&
    mi1.isDigit && mi2.isDigit && (s5 == ':') && se1.isDigit && se2.isDigit &&
    (s6 == '.') && f1.isDigit && f2.isDigit && f3.isDigit && (s7 == 'Z')
  | _ => false

/-! Helper lemmas. -/

/-- Every character produced by `digitChar` is a decimal digit. -/
theorem digitChar_isDigit (n : Nat) : (digitChar n).isDigit = true := by
  have h : n % 10 < 10 := Nat.mod_lt _ (by omega)
  unfold digitChar
  set k := n % 10 with hk
  interval_cases k <;> decide

theorem data_of_space : (" " : String).data = [' '] := rfl

theorem data_of_spaceDash : (" - " : String).data = [' ', '-', ' '] := rfl

theorem data_of_dashSpace : ("- " : String).data = ['-', ' '] := rfl

theorem data_of_nul : ("\x00" : String).data = ['\x00'] := rfl

theorem data_of_empty : ("" : String).data = [] := rfl

theorem data_of_dashes : (" - - " : String).data = [' ', '-', ' ', '-', ' '] := rfl

/-- UTF-8 encoding distributes over string concatenation. -/
theorem utf8Encode_append (a b : String) :
    utf8Encode (a ++ b) = utf8Encode a ++ utf8Encode b := by
  unfold utf8Encode
  rw [String.data_append, List.flatMap_append]

/-- The severity table realizes the level-name-to-severity mapping. -/
theorem mapPriority_of_mem {lvl : String} {sev : Nat}
    (hmem : (lvl, sev) ∈ severityTable) : mapPriority lvl = sev := by
  fin_cases hmem <;> rfl

/-- The stdlib bit encoding of the priority agrees with
facility*8 + severity for in-range severities. -/
theorem encodePriority_eq (f s : Nat) (hs : s < 8) :
    encodePriority f s = f * 8 + s := by
  unfold encodePriority
  rw [Nat.shiftLeft_eq, Nat.mul_comm f (2 ^ 3), ← Nat.mul_add_lt_is_or (by omega) f]

/-- Appending a string does not change the final character of the
appended tail. -/
theorem lastChar_append (s t : String) (c : Char) (h : t.data.getLast? = some c) :
    (s ++ t).data.getLast? = some c := by
  rw [String.data_append, List.getLast?_append, h]
  rfl

/-- The frame splits into the priority prefix and the rest. -/
theorem prio_frameRest (h : Handler) (r : LogRecord) (fqdn body : String) :
    prioOf h r ++ frameRest h r fqdn body = buildFrame h r fqdn body := by
  cases hsd : h.sd <;>
    · apply String.ext
      simp [prioOf, frameRest, buildFrame, hsd, String.data_append,
        data_of_space, data_of_spaceDash, List.append_assoc]

/-- C4: for every record (with the creation time in the range where the
strftime model is exact, years 1970 to 9999, and the millisecond field
below 1000 as the logging framework guarantees), get_timestamp renders
exactly the shape YYYY-MM-DDTHH:MM:SS.mmmZ, with a three-digit
zero-padded fractional part and a literal trailing Z; the creation time
2019-06-12 22:07:17.772 UTC renders as 2019-06-12T22:07:17.772Z. -/
theorem C4_timestamp_format :
    (∀ r : LogRecord, r.created < 253402300800 → r.msecs < 1000 →
      tsShape (get_timestamp r) = true)
    ∧ get_timestamp ⟨1560377237, 772, "INFO"⟩ = "2019-06-12T22:07:17.772Z" := by
  constructor
  · intro r _ _
    show tsShape ⟨strftimeIso (gmtime r.created) ++ '.' :: pad3 r.msecs ++ ['Z']⟩ = true
    simp [tsShape, strftimeIso, pad4, pad3, pad2, digitChar_isDigit]
  · rfl

/-- C4 witness: the hypotheses hold and the shape check passes at the
docstring example record. -/
theorem C4_witness :
    1560377237 < 253402300800 ∧ 772 < 1000 ∧
      tsShape (get_timestamp ⟨1560377237, 772, "INFO"⟩) = true :=
  ⟨by decide, by decide,
    C4_timestamp_format.1 ⟨1560377237, 772, "INFO"⟩ (by decide) (by decide)⟩

/-- C2: the frame built by emit is exactly the priority and version
prefix, then timestamp, hostname, appname, procid and the level name in
the MSGID slot, space separated, then the structured-data NILVALUE when
sd is off, then the message body (which carries the NUL appended at
line 97); and the frame does not depend on the msgid configured at
construction. -/
theorem C2_frame_layout (h : Handler) (r : LogRecord) (fqdn body : String) :
    buildFrame h r fqdn body =
      "<" ++ toString (encodePriority h.facility (mapPriority r.levelname)) ++ ">1 " ++
        get_timestamp r ++ " " ++ fqdn ++ " " ++ h.appname ++ " " ++ h.procid ++ " " ++
        r.levelname ++ " " ++ (if h.sd then "" else "- ") ++ (body ++ "\x00")
    ∧ ∀ a p m m2 addr sd f u st sk,
        buildFrame (initHandler a p m addr sd f u st sk) r fqdn body =
          buildFrame (initHandler a p m2 addr sd f u st sk) r fqdn body := by
  constructor
  · cases hsd : h.sd <;>
      · apply String.ext
        simp [buildFrame, hsd, String.data_append, data_of_space, data_of_spaceDash,
          data_of_dashSpace, data_of_empty, List.append_assoc]
  · intro a p m m2 addr sd f u st sk
    cases sd <;> rfl

/-- C6: the frame is the header followed, when sd is false, by the
literal NILVALUE token and a space immediately before the message body,
and, when sd is true, by the message body immediately after the header
fields. -/
theorem C6_sd_flag (h : Handler) (r : LogRecord) (fqdn body : String) :
    buildFrame h r fqdn body =
      frameHeader h r fqdn ++
        (if h.sd then body ++ "\x00" else "- " ++ (body ++ "\x00")) := by
  cases hsd : h.sd <;>
    · apply String.ext
      simp [buildFrame, frameHeader, hsd, String.data_append, data_of_space,
        data_of_spaceDash, data_of_dashSpace, List.append_assoc]

/-- C5: for every handler and record whose level name is in the
supported severity table, the frame begins with the prefix formed by an
opening angle bracket, the decimal rendering of facility*8 + severity,
a closing angle bracket, the literal version digit 1 and a space. -/
theorem C5_pri_version (h : Handler) (r : LogRecord) (fqdn body : String)
    (lvl : String) (sev : Nat) (hmem : (lvl, sev) ∈ severityTable)
    (hlvl : r.levelname = lvl) :
    ("<" ++ toString (h.facility * 8 + sev) ++ ">1 ").data <+:
      (buildFrame h r fqdn body).data := by
  have hsev : sev < 8 := by fin_cases hmem <;> decide
  have hmap : mapPriority r.levelname = sev := by
    rw [hlvl]; exact mapPriority_of_mem hmem
  have henc : encodePriority h.facility (mapPriority r.levelname) = h.facility * 8 + sev := by
    rw [hmap]; exact encodePriority_eq h.facility sev hsev
  cases hsd : h.sd
  · refine ⟨(get_timestamp r ++ " " ++ fqdn ++ " " ++ h.appname ++ " " ++ h.procid ++ " " ++
      r.levelname ++ " - " ++ (body ++ "\x00")).data, ?_⟩
    simp [buildFrame, hsd, henc, String.data_append, List.append_assoc]
  · refine ⟨(get_timestamp r ++ " " ++ fqdn ++ " " ++ h.appname ++ " " ++ h.procid ++ " " ++
      r.levelname ++ " " ++ (body ++ "\x00")).data, ?_⟩
    simp [buildFrame, hsd, henc, String.data_append, List.append_assoc]

/-- C5 witness: facility 1 with level INFO (severity 6) yields a frame
beginning with the characters of the prefix of priority 14. -/
theorem C5_witness :
    (("INFO", 6) ∈ severityTable) ∧
      ("<14>1 ").data <+: (buildFrame udpH sampleR "img0" "m").data :=
  ⟨by decide, C5_pri_version udpH sampleR "img0" "m" "INFO" 6 (by decide) rfl⟩

/-- C7 counterexample: with an explicitly empty appname the frame
interpolates the empty string verbatim, yielding two adjacent spaces
(an empty field) instead of the claimed NILVALUE hyphen, so the frame
differs from the one the claim prescribes. -/
theorem C7_counterexample :
    buildFrame emptyAppH ⟨0, 0, "INFO"⟩ "img0" "m" =
      "<14>1 1970-01-01T00:00:00.000Z img0  TAG INFO - m\x00" ∧
    ([' ', ' '] <:+: (buildFrame emptyAppH ⟨0, 0, "INFO"⟩ "img0" "m").data) ∧
    buildFrame emptyAppH ⟨0, 0, "INFO"⟩ "img0" "m" ≠
      "<14>1 1970-01-01T00:00:00.000Z img0 - TAG INFO - m\x00" :=
  ⟨by decide, by decide, by decide⟩

/-- C7 (amended): a configuration that leaves appname and procid unset
gets the default value, the one-character hyphen, so those header
fields render as the NILVALUE placeholder; an explicitly empty string,
however, is interpolated verbatim and produces an empty field. -/
theorem C7_default_renders_nil (m addr : String) (sd : Bool) (f : Nat) (u : Bool)
    (st : SockType) (sk : Nat) (r : LogRecord) (fqdn body : String) :
    buildFrame (initHandler "-" "-" m addr sd f u st sk) r fqdn body =
      "<" ++ toString (encodePriority f (mapPriority r.levelname)) ++ ">1 " ++
        get_timestamp r ++ " " ++ fqdn ++ " - - " ++ r.levelname ++
        (if sd then " " else " - ") ++ (body ++ "\x00") := by
  cases sd <;>
    · apply String.ext
      simp [buildFrame, initHandler, String.data_append, data_of_space,
        data_of_spaceDash, data_of_dashes, List.append_assoc]

/-- C8 counterexample: on a handler whose inherited state is a UDP
datagram socket, a successful emit sends exactly one datagram and its
payload ends with a NUL byte, because line 97 appends the NUL
unconditionally for every transport. -/
theorem C8_counterexample :
    (emit udpH ⟨0, 0, "INFO"⟩ envOk "img0").2.1 =
      [Event.sendto (utf8Encode (buildFrame udpH ⟨0, 0, "INFO"⟩ "img0" "m")) "127.0.0.1:514"] ∧
    (utf8Encode (buildFrame udpH ⟨0, 0, "INFO"⟩ "img0" "m")).getLast? = some 0 :=
  ⟨by decide, by decide⟩

/-- C8 (amended): the NUL terminator is appended after the message body
unconditionally, for every configuration and hence every transport;
there is no framing-by-NUL option in the code. -/
theorem C8_nul_always (h : Handler) (r : LogRecord) (fqdn body : String) :
    (buildFrame h r fqdn body).data.getLast? = some '\x00' := by
  rw [← prio_frameRest]
  exact lastChar_append _ _ _ (lastChar_append _ _ _ (lastChar_append _ _ _ rfl))

/-- The emit wrapper never changes which handler state the try block
produced. -/
theorem emit_fst (h : Handler) (r : LogRecord) (env : EmitEnv) (fqdn : String) :
    (emit h r env fqdn).1 = (emitTry h r env fqdn).1 := by
  rcases hE : emitTry h r env fqdn with ⟨h2, evs, exc⟩
  cases exc <;> simp [emit, hE]

/-- The try block returns the handler unchanged except possibly for the
socket object, which is replaced only on the Unix-socket reconnect
path, entered only when the first send raised an OSError. -/
theorem emitTry_fst (h : Handler) (r : LogRecord) (env : EmitEnv) (fqdn : String) :
    (emitTry h r env fqdn).1 = h ∨
      ((emitTry h r env fqdn).1 = { h with sock := h.sock + 1 } ∧
        h.unixsocket = true ∧ env.sendFail 0 = some PyExc.osError) := by
  unfold emitTry
  repeat' split
  all_goals first
    | (left; rfl)
    | (right; refine ⟨rfl, ?_, ?_⟩ <;> simp_all)

/-- The payloads sent by emit are those sent by its try block; the
handleError path sends nothing. -/
theorem emit_sent_eq (h : Handler) (r : LogRecord) (env : EmitEnv) (fqdn : String) :
    sentPayloads (emit h r env fqdn).2.1 = sentPayloads (emitTry h r env fqdn).2.1 := by
  rcases hE : emitTry h r env fqdn with ⟨h2, evs, exc⟩
  cases exc <;> simp [emit, hE, sentPayloads, payloadOf]

/-- Every payload the try block hands to a send operation is the UTF-8
image of the frame built from the formatted body. -/
theorem emitTry_payloads (h : Handler) (r : LogRecord) (env : EmitEnv) (fqdn : String)
    (p : List Nat) (hp : p ∈ sentPayloads (emitTry h r env fqdn).2.1) :
    ∃ body, env.formatRes = Except.ok body ∧ p = utf8Encode (buildFrame h r fqdn body) := by
  unfold emitTry at hp
  rcases hf : env.formatRes with e | body
  · rw [hf] at hp
    simp [sentPayloads] at hp
  · rw [hf] at hp
    refine ⟨body, rfl, ?_⟩
    simp only [] at hp
    repeat' split at hp
    all_goals simp only [sentPayloads, List.filterMap_cons, List.filterMap_nil,
      payloadOf, List.mem_cons, List.not_mem_nil, or_false, or_self] at hp
    all_goals exact hp

/-- C1: for every handler state, record and environment outcome, emit
returns normally, with no exception escaping to the caller; whenever
anything inside the try block raised (formatting, encoding, a send, or
the reconnect-and-resend), the trace ends with the single handleError
call that routed the failure to the logging framework. -/
theorem C1_emit_never_raises (h : Handler) (r : LogRecord) (env : EmitEnv) (fqdn : String) :
    (emit h r env fqdn).2.2 = none ∧
    (emit h r env fqdn).2.1 =
      (emitTry h r env fqdn).2.1 ++
        (if (emitTry h r env fqdn).2.2.isSome then [Event.handleError] else []) := by
  rcases hE : emitTry h r env fqdn with ⟨h2, evs, exc⟩
  cases exc <;> simp [emit, hE]

/-- The counterfactual retry path: on a Unix-socket handler whose first
send raises an exception that IS an instance of OSError, the clause at
lines 132-135 performs exactly one close, one reconnect and one resend
and nothing further, and a failure of the reconnect or of the retried
send ends in handleError.  Under Python 2 no real socket send failure
is such an instance (sends raise socket.error, a subclass of IOError),
so this path is dead code; see C3_dead_retry. -/
theorem osErrorRetryPath (h : Handler) (r : LogRecord) (env : EmitEnv) (fqdn body : String)
    (hu : h.unixsocket = true)
    (hf : env.formatRes = Except.ok body)
    (ha : asciiOnly (body ++ "\x00") = true)
    (hs : env.sendFail 0 = some PyExc.osError) :
    (emit h r env fqdn).2.2 = none ∧
    (emit h r env fqdn).2.1 =
      [Event.send (utf8Encode (buildFrame h r fqdn body)), Event.closeSock,
        Event.reconnect h.address] ++
      (match env.reconnectFail with
        | some _ => [Event.handleError]
        | none =>
          Event.send (utf8Encode (buildFrame h r fqdn body)) ::
            (match env.sendFail 1 with
              | some _ => [Event.handleError]
              | none => [])) := by
  cases hrc : env.reconnectFail with
  | some e2 => simp [emit, emitTry, hf, ha, hu, hs, hrc]
  | none =>
    cases hs1 : env.sendFail 1 with
    | some e2 => simp [emit, emitTry, hf, ha, hu, hs, hrc, hs1]
    | none => simp [emit, emitTry, hf, ha, hu, hs, hrc, hs1]

/-- C3: the claim is the code's evident intent (lines 129-135 are the
retry block of the Python 3 stdlib SysLogHandler.emit) but the code
never performs it: in this Python 2 module a failing socket send raises
socket.error, which is not an instance of the OSError named by the
except clause at line 132, so the failure falls through to the outer
handler with no close, no reconnect and no resend.  Evaluated at the
failing input: a Unix-socket handler whose first send raises
socket.error produces only the failed send and the handleError call. -/
theorem C3_dead_retry :
    (emit sampleHU sampleR envSockFail "img0").2.2 = none ∧
    (emit sampleHU sampleR envSockFail "img0").2.1 =
      [Event.send (utf8Encode (buildFrame sampleHU sampleR "img0" "hello")),
        Event.handleError] ∧
    Event.closeSock ∉ (emit sampleHU sampleR envSockFail "img0").2.1 ∧
    Event.reconnect "/dev/log" ∉ (emit sampleHU sampleR envSockFail "img0").2.1 :=
  ⟨by decide, by decide, by decide, by decide⟩

/-- C10: emit leaves every configuration field of the handler unchanged
for every outcome; the only instance state it may replace is the socket
object, and only on the Unix-socket reconnect path, entered when the
first send raised an OSError. -/
theorem C10_config_preserved (h : Handler) (r : LogRecord) (env : EmitEnv) (fqdn : String) :
    (emit h r env fqdn).1.appname = h.appname ∧
    (emit h r env fqdn).1.procid = h.procid ∧
    (emit h r env fqdn).1.msgid = h.msgid ∧
    (emit h r env fqdn).1.sd = h.sd ∧
    (emit h r env fqdn).1.facility = h.facility ∧
    (emit h r env fqdn).1.address = h.address ∧
    (emit h r env fqdn).1.unixsocket = h.unixsocket ∧
    (emit h r env fqdn).1.socktype = h.socktype ∧
    ((emit h r env fqdn).1.sock ≠ h.sock →
      h.unixsocket = true ∧ env.sendFail 0 = some PyExc.osError) := by
  rw [emit_fst]
  rcases emitTry_fst h r env fqdn with hE | ⟨hE, hu, hs⟩
  · rw [hE]
    exact ⟨rfl, rfl, rfl, rfl, rfl, rfl, rfl, rfl, fun hne => absurd rfl hne⟩
  · rw [hE]
    exact ⟨rfl, rfl, rfl, rfl, rfl, rfl, rfl, rfl, fun _ => ⟨hu, hs⟩⟩

/-- C10 witness: on a concrete Unix-socket run that does replace the
socket, the configuration is untouched and the replacement indeed
happened on the reconnect path. -/
theorem C10_witness :
    (emit sampleHU sampleR envBothFail "img0").1.appname = sampleHU.appname ∧
    (sampleHU.unixsocket = true ∧ envBothFail.sendFail 0 = some PyExc.osError) := by
  have H := C10_config_preserved sampleHU sampleR envBothFail "img0"
  exact ⟨H.1, H.2.2.2.2.2.2.2.2 (by decide)⟩

/-- C9: every payload handed to a socket send operation by emit is
obtained by UTF-8 encoding the plain-ASCII priority/version prefix and
the remainder of the textual frame separately and concatenating the
two, and that concatenation is exactly the encoding of the whole
assembled frame. -/
theorem C9_payload_utf8 (h : Handler) (r : LogRecord) (env : EmitEnv) (fqdn : String)
    (p : List Nat) (hp : p ∈ sentPayloads (emit h r env fqdn).2.1) :
    ∃ body, env.formatRes = Except.ok body ∧
      p = utf8Encode (prioOf h r) ++ utf8Encode (frameRest h r fqdn body) ∧
      prioOf h r ++ frameRest h r fqdn body = buildFrame h r fqdn body := by
  rw [emit_sent_eq] at hp
  rcases emitTry_payloads h r env fqdn p hp with ⟨body, hb, hpeq⟩
  refine ⟨body, hb, ?_, prio_frameRest h r fqdn body⟩
  rw [hpeq, ← prio_frameRest, utf8Encode_append]

/-- C9 witness: the payload of the concrete successful UDP run is the
concatenation of the separately encoded prefix and remainder. -/
theorem C9_witness :
    ∃ body, envOk.formatRes = Except.ok body ∧
      utf8Encode (buildFrame udpH sampleR "img0" "m") =
        utf8Encode (prioOf udpH sampleR) ++ utf8Encode (frameRest udpH sampleR "img0" body) ∧
      prioOf udpH sampleR ++ frameRest udpH sampleR "img0" body =
        buildFrame udpH sampleR "img0" body :=
  C9_payload_utf8 udpH sampleR envOk "img0"
    (utf8Encode (buildFrame udpH sampleR "img0" "m")) (by decide)
